import Mathlib

/-!
Shallow embedding of the radiometric link-budget SNR pipeline from
`src/SNR_VIS.ipynb` (MIT-STARLab/Radiometric_Link_Budget).

The notebook is a pure numeric pipeline over scalar parameters: unit
conversion, geometric derivations, the photon-to-electron signal model, the
five-term noise model, and the final SNR combination.  Floating-point
arithmetic is modelled over the reals.  Definitions follow the notebook
cell by cell; names are kept from the source.
-/

noncomputable section

namespace SNRVis

/-- The 14 user-facing parameters plus the 4 loss fractions, exactly the
variables assigned in the parameter-input cell of the notebook.  The same
record shape is used before unit conversion (raw, engineering units) and
after (SI units), since the notebook overwrites the variables in place. -/
structure Params where
  R : ℝ
  lambda_c : ℝ
  D_ap : ℝ
  D_obs : ℝ
  n_x : ℝ
  n_y : ℝ
  D : ℝ
  f : ℝ
  BW : ℝ
  L_typ : ℝ
  eta : ℝ
  t : ℝ
  n_evmax : ℝ
  DR : ℝ
  L_abs : ℝ
  L_scat : ℝ
  L_opt : ℝ
  L_crop : ℝ

/-- The unit-conversion cell: `R *= 1e3; lambda_c *= 1e-9; D_ap *= 1e-3;
D_obs *= 1e-3; D *= 1e-6; f *= 1e-3; BW *= 1e-9; L_typ *= 1e6`.
All other fields are untouched. -/
def toSI (p : Params) : Params :=
  { p with
    R := p.R * 1e3
    lambda_c := p.lambda_c * 1e-9
    D_ap := p.D_ap * 1e-3
    D_obs := p.D_obs * 1e-3
    D := p.D * 1e-6
    f := p.f * 1e-3
    BW := p.BW * 1e-9
    L_typ := p.L_typ * 1e6 }

/-- Source: `R_e = 6378.137 * 1e3`, the Earth radius constant of the notebook. -/
def R_e : ℝ := 6378.137 * 1e3

/-- Source: `h = sp.constants.h`, the Planck constant (SI 2019 exact value). -/
def h : ℝ := 6.62607015e-34

/-- Source: `c = sp.constants.c`, the speed of light. -/
def c : ℝ := 299792458

/-- Source: `db2volt(db) = 10 ** (db/20)` from the helper-function cell. -/
def db2volt (db : ℝ) : ℝ := (10 : ℝ) ^ (db / 20)

/-- Source: `A_ap = np.pi * (D_ap ** 2) / 4`. -/
def A_ap (p : Params) : ℝ := Real.pi * p.D_ap ^ 2 / 4

/-- Source: `A_obs = np.pi * (D_obs ** 2) / 4`. -/
def A_obs (p : Params) : ℝ := Real.pi * p.D_obs ^ 2 / 4

/-- Source: `A_det = D**2 * n_x * n_y`. -/
def A_det (p : Params) : ℝ := p.D ^ 2 * p.n_x * p.n_y

/-- Source: `iFOV_px = np.rad2deg(2 * np.arctan(0.5 * D / f))`. -/
def iFOV_px (p : Params) : ℝ :=
  2 * Real.arctan (0.5 * p.D / p.f) * (180 / Real.pi)

/-- Source: `pix_smear = t * np.sqrt(398600000.5/(R + R_e)) * 1000`. -/
def pix_smear (p : Params) : ℝ :=
  p.t * Real.sqrt (398600000.5 / (p.R + R_e)) * 1000

/-- Source: `P = A_det * ((A_ap - A_obs)/(f ** 2)) * BW * L_typ * (1-L_abs) *
(1-L_scat) * (1 - L_opt) * (1-L_crop)`, the collected optical power. -/
def P (p : Params) : ℝ :=
  A_det p * ((A_ap p - A_obs p) / p.f ^ 2) * p.BW * p.L_typ *
    (1 - p.L_abs) * (1 - p.L_scat) * (1 - p.L_opt) * (1 - p.L_crop)

/-- Source: `phi_det = (lambda_c * P) / (c * h)`, the total detected photon rate. -/
def phi_det (p : Params) : ℝ := p.lambda_c * P p / (c * h)

/-- Source: `phi = phi_det / (n_x * n_y)`, the per-pixel photon rate. -/
def phi (p : Params) : ℝ := phi_det p / (p.n_x * p.n_y)

/-- Source: `n_ev = phi * eta * t`, the collected electrons per pixel. -/
def n_ev (p : Params) : ℝ := phi p * p.eta * p.t

/-- Source: `saturation = n_ev / n_evmax`, the well-saturation fraction. -/
def saturation (p : Params) : ℝ := n_ev p / p.n_evmax

/-- Source: `n_sh = np.sqrt(n_ev)`, shot noise. -/
def n_sh (p : Params) : ℝ := Real.sqrt (n_ev p)

/-- Source: `n_d = 100 * t`, dark-current noise. -/
def n_d (p : Params) : ℝ := 100 * p.t

/-- Source: `n_q = 5`, quantization noise (a constant). -/
def n_q (_p : Params) : ℝ := 5

/-- Source: `n_fpn = 0.0005 * n_ev`, fixed-pattern noise. -/
def n_fpn (p : Params) : ℝ := 0.0005 * n_ev p

/-- Source: `n_r = n_evmax / (db2volt(DR))`, readout noise. -/
def n_r (p : Params) : ℝ := p.n_evmax / db2volt p.DR

/-- The combined noise sum appearing under the square root in the SNR cell:
`n_sh ** 2 + n_d ** 2 + n_q ** 2 + n_fpn ** 2 + (n_r ** 2) ** 2`. -/
def noise_sum (p : Params) : ℝ :=
  n_sh p ^ 2 + n_d p ^ 2 + n_q p ^ 2 + n_fpn p ^ 2 + (n_r p ^ 2) ^ 2

/-- Source: `snr = n_ev / np.sqrt(n_sh ** 2 + n_d ** 2 + n_q ** 2 + n_fpn ** 2 +
(n_r ** 2) ** 2)`. -/
def snr (p : Params) : ℝ :=
  n_ev p /
    Real.sqrt (n_sh p ^ 2 + n_d p ^ 2 + n_q p ^ 2 + n_fpn p ^ 2 +
      (n_r p ^ 2) ^ 2)

/-- The default parameter values assigned in the parameter-input cell of the
notebook (raw engineering units, before the unit-conversion lines). -/
def defaultRaw : Params :=
  ⟨400, 625, 11.4, 0, 2200, 3208, 6, 16, 300, 20.45, 0.35, 1.3e-4,
    12000, 55, 0.11, 0.058, 0.2, 0.6⟩

/-- The default configuration with the spectral radiance set to 0.  Every
validation rule of spec §4.1 still holds for it, since §4.1 places no
constraint on the spectral radiance. -/
def zeroRadianceRaw : Params := { defaultRaw with L_typ := 0 }

/-- Modelled from the spec: the notebook itself contains no validation code,
so the `InvalidParameter(field, constraint, value)` condition of spec §4.1/§7
is modelled here from the spec's words. -/
structure InvalidParameter where
  field : String
  constraint : String
  value : ℝ

/-- Modelled from the spec: ParameterSet validation (spec §4.1) — the
notebook has no validation code.  Each rule of §4.1 is checked and the first
violation reported: distances, diameters, wavelength, pitch, focal length,
bandwidth, exposure time and well capacity strictly positive; obscuration
diameter nonnegative and strictly less than the aperture diameter; pixel
counts strictly positive (their integrality is not modelled — the notebook
holds them as plain numbers); quantum efficiency in (0,1]; loss fractions
each in [0,1); dynamic range strictly positive. -/
def validate (p : Params) : Except InvalidParameter Unit :=
  if p.R ≤ 0 then .error ⟨"R", "must be positive", p.R⟩
  else if p.lambda_c ≤ 0 then .error ⟨"lambda_c", "must be positive", p.lambda_c⟩
  else if p.D_ap ≤ 0 then .error ⟨"D_ap", "must be positive", p.D_ap⟩
  else if p.D_obs < 0 then .error ⟨"D_obs", "must be nonnegative", p.D_obs⟩
  else if p.D_ap ≤ p.D_obs then .error ⟨"D_obs", "must be less than D_ap", p.D_obs⟩
  else if p.n_x ≤ 0 then .error ⟨"n_x", "must be positive", p.n_x⟩
  else if p.n_y ≤ 0 then .error ⟨"n_y", "must be positive", p.n_y⟩
  else if p.D ≤ 0 then .error ⟨"D", "must be positive", p.D⟩
  else if p.f ≤ 0 then .error ⟨"f", "must be positive", p.f⟩
  else if p.BW ≤ 0 then .error ⟨"BW", "must be positive", p.BW⟩
  else if p.eta ≤ 0 then .error ⟨"eta", "must be positive", p.eta⟩
  else if 1 < p.eta then .error ⟨"eta", "must be at most 1", p.eta⟩
  else if p.t ≤ 0 then .error ⟨"t", "must be positive", p.t⟩
  else if p.n_evmax ≤ 0 then .error ⟨"n_evmax", "must be positive", p.n_evmax⟩
  else if p.DR ≤ 0 then .error ⟨"DR", "must be positive", p.DR⟩
  else if p.L_abs < 0 ∨ 1 ≤ p.L_abs then .error ⟨"L_abs", "must be in [0,1)", p.L_abs⟩
  else if p.L_scat < 0 ∨ 1 ≤ p.L_scat then .error ⟨"L_scat", "must be in [0,1)", p.L_scat⟩
  else if p.L_opt < 0 ∨ 1 ≤ p.L_opt then .error ⟨"L_opt", "must be in [0,1)", p.L_opt⟩
  else if p.L_crop < 0 ∨ 1 ≤ p.L_crop then .error ⟨"L_crop", "must be in [0,1)", p.L_crop⟩
  else .ok ()

/-- The validity predicate corresponding to `validate` succeeding: the
validation rules of spec §4.1, as a proposition on the raw parameters. -/
def Valid (p : Params) : Prop :=
  0 < p.R ∧ 0 < p.lambda_c ∧ 0 < p.D_ap ∧ 0 ≤ p.D_obs ∧ p.D_obs < p.D_ap ∧
    0 < p.n_x ∧ 0 < p.n_y ∧ 0 < p.D ∧ 0 < p.f ∧ 0 < p.BW ∧
    0 < p.eta ∧ p.eta ≤ 1 ∧ 0 < p.t ∧ 0 < p.n_evmax ∧ 0 < p.DR ∧
    0 ≤ p.L_abs ∧ p.L_abs < 1 ∧ 0 ≤ p.L_scat ∧ p.L_scat < 1 ∧
    0 ≤ p.L_opt ∧ p.L_opt < 1 ∧ 0 ≤ p.L_crop ∧ p.L_crop < 1

/-- The full set of derived quantities exposed by the pipeline (spec §6:
geometry, signal, noise, and SNR results). -/
structure Results where
  A_ap : ℝ
  A_obs : ℝ
  A_det : ℝ
  iFOV_px : ℝ
  pix_smear : ℝ
  P : ℝ
  phi_det : ℝ
  phi : ℝ
  n_ev : ℝ
  saturation : ℝ
  n_sh : ℝ
  n_d : ℝ
  n_q : ℝ
  n_fpn : ℝ
  n_r : ℝ
  snr : ℝ

/-- All derived quantities of the pipeline, evaluated on SI parameters. -/
def results (p : Params) : Results :=
  ⟨A_ap p, A_obs p, A_det p, iFOV_px p, pix_smear p, P p, phi_det p, phi p,
    n_ev p, saturation p, n_sh p, n_d p, n_q p, n_fpn p, n_r p, snr p⟩

/-- The single logical operation of spec §6: validate the raw parameters
(`validate` is modelled from the spec), then run the notebook's pipeline on
the unit-converted parameters.  On failure only the `InvalidParameter`
condition is returned, never a partial result. -/
def compute (p : Params) : Except InvalidParameter Results :=
  (validate p).map fun _ => results (toSI p)

/-- Claim C1: the combined noise sum used by the SNR calculation is
`n_sh^2 + n_d^2 + n_q^2 + n_fpn^2 + (n_r^2)^2` (the readout term entering as
`n_r^4`, not `n_r^2`), and the linear SNR equals `n_ev` divided by the square
root of that sum, for every input on which the pipeline is run. -/
theorem snr_combined_noise_formula (p : Params) :
    noise_sum p =
      n_sh p ^ 2 + n_d p ^ 2 + n_q p ^ 2 + n_fpn p ^ 2 + (n_r p ^ 2) ^ 2 ∧
    (n_r p ^ 2) ^ 2 = n_r p ^ 4 ∧
    snr p = n_ev p / Real.sqrt (noise_sum p) :=
  ⟨rfl, by ring, rfl⟩

/-- Claim C3: unit normalization multiplies each raw parameter by exactly one
fixed factor, applied once — range ×1e3, center wavelength ×1e-9, aperture and
obscuration diameters ×1e-3, pixel pitch ×1e-6, focal length ×1e-3, bandwidth
×1e-9, spectral radiance ×1e6 — and all other inputs are left unchanged. -/
theorem toSI_conversion_factors (p : Params) :
    (toSI p).R = p.R * 1e3 ∧ (toSI p).lambda_c = p.lambda_c * 1e-9 ∧
    (toSI p).D_ap = p.D_ap * 1e-3 ∧ (toSI p).D_obs = p.D_obs * 1e-3 ∧
    (toSI p).D = p.D * 1e-6 ∧ (toSI p).f = p.f * 1e-3 ∧
    (toSI p).BW = p.BW * 1e-9 ∧ (toSI p).L_typ = p.L_typ * 1e6 ∧
    (toSI p).n_x = p.n_x ∧ (toSI p).n_y = p.n_y ∧ (toSI p).eta = p.eta ∧
    (toSI p).t = p.t ∧ (toSI p).n_evmax = p.n_evmax ∧ (toSI p).DR = p.DR ∧
    (toSI p).L_abs = p.L_abs ∧ (toSI p).L_scat = p.L_scat ∧
    (toSI p).L_opt = p.L_opt ∧ (toSI p).L_crop = p.L_crop :=
  ⟨rfl, rfl, rfl, rfl, rfl, rfl, rfl, rfl, rfl, rfl, rfl, rfl, rfl, rfl,
    rfl, rfl, rfl, rfl⟩

/-- Claim C4: for every input (in SI units) the per-pixel collected electron
count is computed by the exact chain
`P = A_det * ((A_ap - A_obs) / f^2) * BW * L_typ * (1-L_abs) * (1-L_scat) *
(1-L_opt) * (1-L_crop)`, `phi_det = (lambda_c * P) / (c * h)`,
`phi = phi_det / (n_x * n_y)`, and `n_ev = phi * eta * t`. -/
theorem signal_chain (p : Params) :
    P p = A_det p * ((A_ap p - A_obs p) / p.f ^ 2) * p.BW * p.L_typ *
      (1 - p.L_abs) * (1 - p.L_scat) * (1 - p.L_opt) * (1 - p.L_crop) ∧
    phi_det p = p.lambda_c * P p / (c * h) ∧
    phi p = phi_det p / (p.n_x * p.n_y) ∧
    n_ev p = phi p * p.eta * p.t :=
  ⟨rfl, rfl, rfl, rfl⟩

/-- Claim C5: the five noise magnitudes are, for every input,
`n_sh = sqrt n_ev`, `n_d = 100 * t`, `n_q = 5` (a constant independent of all
inputs), `n_fpn = 5e-4 * n_ev`, and `n_r = n_evmax / 10^(DR/20)` (not
`n_evmax / DR` as the notebook's markdown table suggests). -/
theorem noise_term_formulas (p : Params) :
    n_sh p = Real.sqrt (n_ev p) ∧ n_d p = 100 * p.t ∧ n_q p = 5 ∧
    n_fpn p = 5e-4 * n_ev p ∧
    n_r p = p.n_evmax / (10 : ℝ) ^ (p.DR / 20) := by
  refine ⟨rfl, rfl, rfl, ?_, rfl⟩
  unfold n_fpn
  norm_num

/-- Claim C6: the pixel ground smear distance equals exposure time times
`sqrt (398600000.5 / (range + 6378137))` times 1000, with the range in
meters and Earth mean radius 6378137 m, for every input. -/
theorem pix_smear_formula (p : Params) :
    pix_smear p = p.t * Real.sqrt (398600000.5 / (p.R + 6378137)) * 1000 := by
  unfold pix_smear R_e
  norm_num

/-- Claim C10: for every input with positive pixel counts, the per-pixel
electron count `n_ev` — and therefore the saturation fraction, every noise
term, and the SNR — is independent of `n_x` and `n_y`: the factor
`n_x * n_y` introduced in `A_det` cancels exactly against the division by
`n_x * n_y` in the per-pixel photon rate. -/
theorem pipeline_pixel_count_independent (p : Params) (nx1 ny1 nx2 ny2 : ℝ)
    (hx1 : 0 < nx1) (hy1 : 0 < ny1) (hx2 : 0 < nx2) (hy2 : 0 < ny2) :
    n_ev { p with n_x := nx1, n_y := ny1 } =
      n_ev { p with n_x := nx2, n_y := ny2 } ∧
    saturation { p with n_x := nx1, n_y := ny1 } =
      saturation { p with n_x := nx2, n_y := ny2 } ∧
    n_sh { p with n_x := nx1, n_y := ny1 } =
      n_sh { p with n_x := nx2, n_y := ny2 } ∧
    n_d { p with n_x := nx1, n_y := ny1 } =
      n_d { p with n_x := nx2, n_y := ny2 } ∧
    n_q { p with n_x := nx1, n_y := ny1 } =
      n_q { p with n_x := nx2, n_y := ny2 } ∧
    n_fpn { p with n_x := nx1, n_y := ny1 } =
      n_fpn { p with n_x := nx2, n_y := ny2 } ∧
    n_r { p with n_x := nx1, n_y := ny1 } =
      n_r { p with n_x := nx2, n_y := ny2 } ∧
    snr { p with n_x := nx1, n_y := ny1 } =
      snr { p with n_x := nx2, n_y := ny2 } := by
  have hch : c * h ≠ 0 := by
    unfold c h
    norm_num
  have h1 : c * h * (nx1 * ny1) ≠ 0 :=
    mul_ne_zero hch (mul_ne_zero hx1.ne' hy1.ne')
  have h2 : c * h * (nx2 * ny2) ≠ 0 :=
    mul_ne_zero hch (mul_ne_zero hx2.ne' hy2.ne')
  have key : n_ev { p with n_x := nx1, n_y := ny1 } =
      n_ev { p with n_x := nx2, n_y := ny2 } := by
    unfold n_ev phi phi_det P A_det A_ap A_obs
    dsimp only
    simp only [div_div, div_mul_eq_mul_div]
    rw [div_eq_div_iff h1 h2]
    ring
  refine ⟨key, ?_, ?_, rfl, rfl, ?_, rfl, ?_⟩
  · simp only [saturation, key]
  · simp only [n_sh, key]
  · simp only [n_fpn, key]
  · simp only [snr, n_sh, n_fpn, key]
    rfl

/-- Concrete instantiation of `pipeline_pixel_count_independent` at the
default configuration, comparing the 2200×3208 detector with a single-pixel
detector. -/
theorem pipeline_pixel_count_independent_witness :
    n_ev { defaultRaw with n_x := 2200, n_y := 3208 } =
      n_ev { defaultRaw with n_x := 1, n_y := 1 } :=
  (pipeline_pixel_count_independent defaultRaw 2200 3208 1 1 (by norm_num)
    (by norm_num) (by norm_num) (by norm_num)).1

/-- If the obscuration diameter reaches the aperture diameter, `validate`
reports some `InvalidParameter`. -/
theorem validate_fails_of_obs (p : Params) (hc : p.D_ap ≤ p.D_obs) :
    ∃ e, validate p = .error e := by
  unfold validate
  by_cases h1 : p.R ≤ 0
  · rw [if_pos h1]; exact ⟨_, rfl⟩
  rw [if_neg h1]
  by_cases h2 : p.lambda_c ≤ 0
  · rw [if_pos h2]; exact ⟨_, rfl⟩
  rw [if_neg h2]
  by_cases h3 : p.D_ap ≤ 0
  · rw [if_pos h3]; exact ⟨_, rfl⟩
  rw [if_neg h3]
  by_cases h4 : p.D_obs < 0
  · rw [if_pos h4]; exact ⟨_, rfl⟩
  rw [if_neg h4, if_pos hc]
  exact ⟨_, rfl⟩

/-- If the quantum efficiency is 0 or exceeds 1, `validate` reports some
`InvalidParameter`. -/
theorem validate_fails_of_eta (p : Params) (hc : p.eta = 0 ∨ 1 < p.eta) :
    ∃ e, validate p = .error e := by
  unfold validate
  by_cases h1 : p.R ≤ 0
  · rw [if_pos h1]; exact ⟨_, rfl⟩
  rw [if_neg h1]
  by_cases h2 : p.lambda_c ≤ 0
  · rw [if_pos h2]; exact ⟨_, rfl⟩
  rw [if_neg h2]
  by_cases h3 : p.D_ap ≤ 0
  · rw [if_pos h3]; exact ⟨_, rfl⟩
  rw [if_neg h3]
  by_cases h4 : p.D_obs < 0
  · rw [if_pos h4]; exact ⟨_, rfl⟩
  rw [if_neg h4]
  by_cases h5 : p.D_ap ≤ p.D_obs
  · rw [if_pos h5]; exact ⟨_, rfl⟩
  rw [if_neg h5]
  by_cases h6 : p.n_x ≤ 0
  · rw [if_pos h6]; exact ⟨_, rfl⟩
  rw [if_neg h6]
  by_cases h7 : p.n_y ≤ 0
  · rw [if_pos h7]; exact ⟨_, rfl⟩
  rw [if_neg h7]
  by_cases h8 : p.D ≤ 0
  · rw [if_pos h8]; exact ⟨_, rfl⟩
  rw [if_neg h8]
  by_cases h9 : p.f ≤ 0
  · rw [if_pos h9]; exact ⟨_, rfl⟩
  rw [if_neg h9]
  by_cases h10 : p.BW ≤ 0
  · rw [if_pos h10]; exact ⟨_, rfl⟩
  rw [if_neg h10]
  by_cases h11 : p.eta ≤ 0
  · rw [if_pos h11]; exact ⟨_, rfl⟩
  rw [if_neg h11]
  rcases hc with hzero | hbig
  · exact absurd (le_of_eq hzero) h11
  · rw [if_pos hbig]
    exact ⟨_, rfl⟩

/-- Claim C2: invalid inputs are rejected before any numeric computation —
an obscuration diameter equal to or greater than the aperture diameter
always fails with an `InvalidParameter` condition, and a quantum efficiency
equal to 0 or greater than 1 always fails with an `InvalidParameter`
condition; `compute` returns only the error, never a partial result. -/
theorem invalid_inputs_rejected (p : Params) :
    (p.D_ap ≤ p.D_obs → ∃ e, compute p = .error e) ∧
    (p.eta = 0 ∨ 1 < p.eta → ∃ e, compute p = .error e) := by
  have herr : ∀ e, validate p = .error e → compute p = .error e := by
    intro e he
    unfold compute
    rw [he]
    rfl
  constructor
  · intro hcond
    obtain ⟨e, he⟩ := validate_fails_of_obs p hcond
    exact ⟨e, herr e he⟩
  · intro hcond
    obtain ⟨e, he⟩ := validate_fails_of_eta p hcond
    exact ⟨e, herr e he⟩

/-- Concrete instantiation of `invalid_inputs_rejected`: the default
configuration with the obscuration diameter raised to the aperture diameter
fails, and the default configuration with zero quantum efficiency fails. -/
theorem invalid_inputs_rejected_witness :
    (∃ e, compute { defaultRaw with D_obs := 11.4 } = .error e) ∧
    (∃ e, compute { defaultRaw with eta := 0 } = .error e) :=
  ⟨(invalid_inputs_rejected { defaultRaw with D_obs := 11.4 }).1
      (by norm_num [defaultRaw]),
    (invalid_inputs_rejected { defaultRaw with eta := 0 }).2 (Or.inl rfl)⟩

/-- Core positivity fact: on parameters (in SI units) whose relevant fields
are positive, whose obscuration is smaller than the aperture, and whose loss
fractions are below 1, the per-pixel electron count is strictly positive. -/
theorem n_ev_pos_si (q : Params) (hlam : 0 < q.lambda_c)
    (hobs : 0 ≤ q.D_obs) (hlt : q.D_obs < q.D_ap)
    (hnx : 0 < q.n_x) (hny : 0 < q.n_y) (hD : 0 < q.D) (hf : 0 < q.f)
    (hBW : 0 < q.BW) (hLt : 0 < q.L_typ) (heta : 0 < q.eta) (ht : 0 < q.t)
    (hab : q.L_abs < 1) (hsc : q.L_scat < 1) (hop : q.L_opt < 1)
    (hcr : q.L_crop < 1) : 0 < n_ev q := by
  have hch : (0:ℝ) < c * h := by
    unfold c h
    norm_num
  have hsub : 0 < A_ap q - A_obs q := by
    unfold A_ap A_obs
    have hsq : q.D_obs ^ 2 < q.D_ap ^ 2 := by nlinarith
    nlinarith [mul_pos Real.pi_pos (sub_pos.mpr hsq)]
  have hP : 0 < P q := by
    unfold P A_det
    refine mul_pos (mul_pos (mul_pos (mul_pos (mul_pos (mul_pos
      (mul_pos ?_ ?_) hBW) hLt) ?_) ?_) ?_) ?_
    · exact mul_pos (mul_pos (pow_pos hD 2) hnx) hny
    · exact div_pos hsub (pow_pos hf 2)
    · linarith
    · linarith
    · linarith
    · linarith
  have hpd : 0 < phi_det q := by
    unfold phi_det
    exact div_pos (mul_pos hlam hP) hch
  have hφ : 0 < phi q := by
    unfold phi
    exact div_pos hpd (mul_pos hnx hny)
  exact mul_pos (mul_pos hφ heta) ht

/-- Positivity of the per-pixel electron count after unit conversion, from
positivity facts on the raw parameters. -/
theorem n_ev_pos_toSI_of (p : Params) (hlam : 0 < p.lambda_c)
    (hobs : 0 ≤ p.D_obs) (hlt : p.D_obs < p.D_ap)
    (hnx : 0 < p.n_x) (hny : 0 < p.n_y) (hD : 0 < p.D) (hf : 0 < p.f)
    (hBW : 0 < p.BW) (hLt : 0 < p.L_typ) (heta : 0 < p.eta) (ht : 0 < p.t)
    (hab : p.L_abs < 1) (hsc : p.L_scat < 1) (hop : p.L_opt < 1)
    (hcr : p.L_crop < 1) : 0 < n_ev (toSI p) := by
  refine n_ev_pos_si (toSI p) ?_ ?_ ?_ ?_ ?_ ?_ ?_ ?_ ?_ ?_ ?_ ?_ ?_ ?_ ?_ <;>
    dsimp only [toSI] <;> linarith

/-- The default configuration satisfies every rule of spec §4.1. -/
theorem valid_defaultRaw : Valid defaultRaw := by
  unfold Valid defaultRaw
  norm_num

/-- Zeroing the radiance keeps every rule of spec §4.1 satisfied, since
§4.1 does not mention the spectral radiance. -/
theorem valid_zeroRadianceRaw : Valid zeroRadianceRaw := valid_defaultRaw

/-- Claim C7 counterexample: the claim as stated is false.  The default
configuration with spectral radiance 0 satisfies every validation rule of
spec §4.1 (which never constrains the radiance), yet the electron count is 0
at every exposure time, so strictly increasing the exposure time does not
strictly increase `n_ev`. -/
theorem monotonicity_counterexample :
    Valid zeroRadianceRaw ∧ (0:ℝ) < 1e-4 ∧ (1e-4:ℝ) < 2e-4 ∧
    ¬ n_ev (toSI { zeroRadianceRaw with t := 1e-4 }) <
        n_ev (toSI { zeroRadianceRaw with t := 2e-4 }) := by
  refine ⟨valid_zeroRadianceRaw, by norm_num, by norm_num, ?_⟩
  have e1 : n_ev (toSI { zeroRadianceRaw with t := 1e-4 }) = 0 := by
    unfold n_ev phi phi_det P A_det A_ap A_obs toSI zeroRadianceRaw defaultRaw
    dsimp only
    ring
  have e2 : n_ev (toSI { zeroRadianceRaw with t := 2e-4 }) = 0 := by
    unfold n_ev phi phi_det P A_det A_ap A_obs toSI zeroRadianceRaw defaultRaw
    dsimp only
    ring
  rw [e1, e2]
  exact lt_irrefl 0

/-- Claim C7 (amended): holding all other inputs fixed, for parameters that
satisfy spec §4.1 and additionally have strictly positive spectral radiance,
strictly increasing the exposure time strictly increases `n_ev`; strictly
increasing any one of the four loss fractions within [0,1) strictly
decreases `n_ev`; and strictly increasing the dynamic range strictly
decreases the readout noise `n_r`. -/
theorem monotonicity_amended (p : Params) (hv : Valid p)
    (hLt : 0 < p.L_typ) :
    (∀ t1 t2 : ℝ, 0 < t1 → t1 < t2 →
      n_ev (toSI { p with t := t1 }) < n_ev (toSI { p with t := t2 })) ∧
    (∀ l1 l2 : ℝ, 0 ≤ l1 → l1 < l2 → l2 < 1 →
      n_ev (toSI { p with L_abs := l2 }) <
        n_ev (toSI { p with L_abs := l1 })) ∧
    (∀ l1 l2 : ℝ, 0 ≤ l1 → l1 < l2 → l2 < 1 →
      n_ev (toSI { p with L_scat := l2 }) <
        n_ev (toSI { p with L_scat := l1 })) ∧
    (∀ l1 l2 : ℝ, 0 ≤ l1 → l1 < l2 → l2 < 1 →
      n_ev (toSI { p with L_opt := l2 }) <
        n_ev (toSI { p with L_opt := l1 })) ∧
    (∀ l1 l2 : ℝ, 0 ≤ l1 → l1 < l2 → l2 < 1 →
      n_ev (toSI { p with L_crop := l2 }) <
        n_ev (toSI { p with L_crop := l1 })) ∧
    (∀ d1 d2 : ℝ, d1 < d2 →
      n_r (toSI { p with DR := d2 }) < n_r (toSI { p with DR := d1 })) := by
  obtain ⟨hR, hlam, hDap, hDobs, hDD, hnx, hny, hD, hf, hBW, heta, heta1,
    ht, hmax, hDR, hab0, hab1, hsc0, hsc1, hop0, hop1, hcr0, hcr1⟩ := hv
  refine ⟨?_, ?_, ?_, ?_, ?_, ?_⟩
  · intro t1 t2 ht1 ht12
    have hkey : ∀ τ : ℝ, n_ev (toSI { p with t := τ }) =
        n_ev (toSI { p with t := 1 }) * τ := by
      intro τ
      unfold n_ev phi phi_det P A_det A_ap A_obs toSI
      dsimp only
      ring
    have hC : 0 < n_ev (toSI { p with t := 1 }) :=
      n_ev_pos_toSI_of _ hlam hDobs hDD hnx hny hD hf hBW hLt heta one_pos
        hab1 hsc1 hop1 hcr1
    rw [hkey t1, hkey t2]
    exact (mul_lt_mul_left hC).mpr ht12
  · intro l1 l2 hl0 hl12 hl2
    have hkey : ∀ l : ℝ, n_ev (toSI { p with L_abs := l }) =
        n_ev (toSI { p with L_abs := 0 }) * (1 - l) := by
      intro l
      unfold n_ev phi phi_det P A_det A_ap A_obs toSI
      dsimp only
      ring
    have hC : 0 < n_ev (toSI { p with L_abs := 0 }) :=
      n_ev_pos_toSI_of _ hlam hDobs hDD hnx hny hD hf hBW hLt heta ht
        zero_lt_one hsc1 hop1 hcr1
    rw [hkey l1, hkey l2]
    exact (mul_lt_mul_left hC).mpr (by linarith)
  · intro l1 l2 hl0 hl12 hl2
    have hkey : ∀ l : ℝ, n_ev (toSI { p with L_scat := l }) =
        n_ev (toSI { p with L_scat := 0 }) * (1 - l) := by
      intro l
      unfold n_ev phi phi_det P A_det A_ap A_obs toSI
      dsimp only
      ring
    have hC : 0 < n_ev (toSI { p with L_scat := 0 }) :=
      n_ev_pos_toSI_of _ hlam hDobs hDD hnx hny hD hf hBW hLt heta ht
        hab1 zero_lt_one hop1 hcr1
    rw [hkey l1, hkey l2]
    exact (mul_lt_mul_left hC).mpr (by linarith)
  · intro l1 l2 hl0 hl12 hl2
    have hkey : ∀ l : ℝ, n_ev (toSI { p with L_opt := l }) =
        n_ev (toSI { p with L_opt := 0 }) * (1 - l) := by
      intro l
      unfold n_ev phi phi_det P A_det A_ap A_obs toSI
      dsimp only
      ring
    have hC : 0 < n_ev (toSI { p with L_opt := 0 }) :=
      n_ev_pos_toSI_of _ hlam hDobs hDD hnx hny hD hf hBW hLt heta ht
        hab1 hsc1 zero_lt_one hcr1
    rw [hkey l1, hkey l2]
    exact (mul_lt_mul_left hC).mpr (by linarith)
  · intro l1 l2 hl0 hl12 hl2
    have hkey : ∀ l : ℝ, n_ev (toSI { p with L_crop := l }) =
        n_ev (toSI { p with L_crop := 0 }) * (1 - l) := by
      intro l
      unfold n_ev phi phi_det P A_det A_ap A_obs toSI
      dsimp only
      ring
    have hC : 0 < n_ev (toSI { p with L_crop := 0 }) :=
      n_ev_pos_toSI_of _ hlam hDobs hDD hnx hny hD hf hBW hLt heta ht
        hab1 hsc1 hop1 zero_lt_one
    rw [hkey l1, hkey l2]
    exact (mul_lt_mul_left hC).mpr (by linarith)
  · intro d1 d2 hd
    unfold n_r db2volt toSI
    dsimp only
    have hx : (10:ℝ) ^ (d1 / 20) < (10:ℝ) ^ (d2 / 20) := by
      apply (Real.rpow_lt_rpow_left_iff (by norm_num : (1:ℝ) < 10)).mpr
      linarith
    exact div_lt_div_of_pos_left hmax
      (Real.rpow_pos_of_pos (by norm_num) _) hx

/-- Concrete instantiation of `monotonicity_amended` at the default
configuration: doubling the exposure time strictly increases the electron
count. -/
theorem monotonicity_amended_witness :
    n_ev (toSI { defaultRaw with t := 1e-4 }) <
      n_ev (toSI { defaultRaw with t := 2e-4 }) :=
  (monotonicity_amended defaultRaw valid_defaultRaw
    (by norm_num [defaultRaw])).1 1e-4 2e-4 (by norm_num) (by norm_num)

/-- Claim C8 counterexample: the claim as stated is false.  The default
configuration with spectral radiance 0 satisfies every validation rule of
spec §4.1 (which never constrains the radiance), yet the linear SNR is 0,
not strictly positive. -/
theorem nonneg_snr_counterexample :
    Valid zeroRadianceRaw ∧ ¬ 0 < snr (toSI zeroRadianceRaw) := by
  refine ⟨valid_zeroRadianceRaw, ?_⟩
  have e : n_ev (toSI zeroRadianceRaw) = 0 := by
    unfold n_ev phi phi_det P A_det A_ap A_obs toSI zeroRadianceRaw defaultRaw
    dsimp only
    ring
  have hs : snr (toSI zeroRadianceRaw) = 0 := by
    unfold snr
    rw [e, zero_div]
  rw [hs]
  exact lt_irrefl 0

/-- Claim C8 (amended): for every RawParameters satisfying the validation
rules of spec §4.1 and additionally having strictly positive spectral
radiance, all of A_ap, A_obs, A_det, n_ev, n_sh, n_d, n_q, n_fpn, n_r and
the saturation fraction are nonnegative; the combined noise sum in the SNR
denominator is strictly positive (n_q = 5 alone guarantees it), so the SNR
division never divides by zero and the linear SNR is strictly positive. -/
theorem nonneg_quantities_amended (p : Params) (hv : Valid p)
    (hLt : 0 < p.L_typ) :
    0 ≤ A_ap (toSI p) ∧ 0 ≤ A_obs (toSI p) ∧ 0 ≤ A_det (toSI p) ∧
    0 ≤ n_ev (toSI p) ∧ 0 ≤ n_sh (toSI p) ∧ 0 ≤ n_d (toSI p) ∧
    0 ≤ n_q (toSI p) ∧ 0 ≤ n_fpn (toSI p) ∧ 0 ≤ n_r (toSI p) ∧
    0 ≤ saturation (toSI p) ∧ 0 < noise_sum (toSI p) ∧
    0 < snr (toSI p) := by
  obtain ⟨hR, hlam, hDap, hDobs, hDD, hnx, hny, hD, hf, hBW, heta, heta1,
    ht, hmax, hDR, hab0, hab1, hsc0, hsc1, hop0, hop1, hcr0, hcr1⟩ := hv
  have hnev : 0 < n_ev (toSI p) :=
    n_ev_pos_toSI_of p hlam hDobs hDD hnx hny hD hf hBW hLt heta ht
      hab1 hsc1 hop1 hcr1
  have h5 : n_q (toSI p) ^ 2 = 25 := by norm_num [n_q]
  have hsum : 0 < n_sh (toSI p) ^ 2 + n_d (toSI p) ^ 2 + n_q (toSI p) ^ 2 +
      n_fpn (toSI p) ^ 2 + (n_r (toSI p) ^ 2) ^ 2 := by
    linarith [sq_nonneg (n_sh (toSI p)), sq_nonneg (n_d (toSI p)),
      sq_nonneg (n_fpn (toSI p)), sq_nonneg (n_r (toSI p) ^ 2)]
  refine ⟨?_, ?_, ?_, hnev.le, Real.sqrt_nonneg _, ?_, by norm_num [n_q],
    ?_, ?_, ?_, ?_, ?_⟩
  · unfold A_ap
    positivity
  · unfold A_obs
    positivity
  · unfold A_det toSI
    dsimp only
    exact mul_nonneg (mul_nonneg (sq_nonneg _) hnx.le) hny.le
  · unfold n_d toSI
    dsimp only
    linarith
  · unfold n_fpn
    exact mul_nonneg (by norm_num) hnev.le
  · unfold n_r db2volt toSI
    dsimp only
    exact div_nonneg hmax.le (Real.rpow_pos_of_pos (by norm_num) _).le
  · unfold saturation
    exact div_nonneg hnev.le hmax.le
  · unfold noise_sum
    exact hsum
  · unfold snr
    exact div_pos hnev (Real.sqrt_pos.mpr hsum)

/-- Concrete instantiation of `nonneg_quantities_amended` at the default
configuration: the linear SNR is strictly positive there. -/
theorem nonneg_quantities_amended_witness : 0 < snr (toSI defaultRaw) :=
  (nonneg_quantities_amended defaultRaw valid_defaultRaw
    (by norm_num [defaultRaw])).2.2.2.2.2.2.2.2.2.2.2

/-- On the default configuration the electron count is an explicit rational
multiple of π (all other factors in the signal chain are rational). -/
theorem n_ev_default_eq : n_ev (toSI defaultRaw) =
    (1018333007475468750 / 945926598642347 : ℝ) * Real.pi := by
  unfold n_ev phi phi_det P A_det A_ap A_obs toSI defaultRaw c h
  dsimp only
  ring_nf

/-- On the default configuration the fourth power of the readout noise is
exactly `12000^4 / 10^11 = 207360`. -/
theorem nr4_default : (n_r (toSI defaultRaw) ^ 2) ^ 2 = 207360 := by
  have hr : n_r (toSI defaultRaw) = 12000 / (10:ℝ) ^ ((55:ℝ) / 20) := rfl
  have hx4 : (((10:ℝ) ^ ((55:ℝ) / 20)) ^ (2:ℕ)) ^ (2:ℕ) = 100000000000 := by
    rw [← pow_mul]
    rw [← Real.rpow_natCast ((10:ℝ) ^ ((55:ℝ) / 20)) (2 * 2),
      ← Real.rpow_mul (by norm_num : (0:ℝ) ≤ 10)]
    rw [show (55:ℝ) / 20 * ((2 * 2 : ℕ) : ℝ) = ((11:ℕ) : ℝ) by norm_num,
      Real.rpow_natCast]
    norm_num
  rw [hr, div_pow, div_pow, hx4]
  norm_num

/-- Claim C9: on the default reference configuration (range 400 km,
wavelength 625 nm, aperture 11.4 mm, obscuration 0 mm, 2200×3208 pixels,
pitch 6 µm, focal length 16 mm, bandwidth 300 nm, radiance 20.45, QE 0.35,
exposure 1.3e-4 s, well 12000 e-, DR 55 dB, losses 0.11/0.058/0.2/0.6), the
pipeline yields `n_ev` within 1% of 3.38e3 electrons, a saturation fraction
within 1% of 0.282, and a linear SNR within 1% of 7.4. -/
theorem reference_scenario :
    |n_ev (toSI defaultRaw) - 3.38e3| ≤ 0.01 * 3.38e3 ∧
    |saturation (toSI defaultRaw) - 0.282| ≤ 0.01 * 0.282 ∧
    |snr (toSI defaultRaw) - 7.4| ≤ 0.01 * 7.4 := by
  have hlo : 3382.06 ≤ n_ev (toSI defaultRaw) := by
    rw [n_ev_default_eq]
    nlinarith [Real.pi_gt_d6]
  have hhi : n_ev (toSI defaultRaw) ≤ 3382.07 := by
    rw [n_ev_default_eq]
    nlinarith [Real.pi_lt_d6]
  have hsat : saturation (toSI defaultRaw) =
      n_ev (toSI defaultRaw) / 12000 := rfl
  have hnsh : n_sh (toSI defaultRaw) ^ 2 = n_ev (toSI defaultRaw) :=
    Real.sq_sqrt (by linarith)
  have hnd : n_d (toSI defaultRaw) = 0.013 := by
    norm_num [n_d, toSI, defaultRaw]
  have hnq : n_q (toSI defaultRaw) = 5 := rfl
  have hfp : n_fpn (toSI defaultRaw) = 0.0005 * n_ev (toSI defaultRaw) := rfl
  have hsum_eq : n_sh (toSI defaultRaw) ^ 2 + n_d (toSI defaultRaw) ^ 2 +
      n_q (toSI defaultRaw) ^ 2 + n_fpn (toSI defaultRaw) ^ 2 +
      (n_r (toSI defaultRaw) ^ 2) ^ 2 =
      n_ev (toSI defaultRaw) + 0.000169 + 25 +
        (0.0005 * n_ev (toSI defaultRaw)) ^ 2 + 207360 := by
    rw [hnsh, hnd, hnq, hfp, nr4_default]
    norm_num
  have hsnr : snr (toSI defaultRaw) = n_ev (toSI defaultRaw) /
      Real.sqrt (n_ev (toSI defaultRaw) + 0.000169 + 25 +
        (0.0005 * n_ev (toSI defaultRaw)) ^ 2 + 207360) := by
    unfold snr
    rw [hsum_eq]
  have hXlo : 210767 ≤ n_ev (toSI defaultRaw) + 0.000169 + 25 +
      (0.0005 * n_ev (toSI defaultRaw)) ^ 2 + 207360 := by
    nlinarith [sq_nonneg (0.0005 * n_ev (toSI defaultRaw))]
  have hXhi : n_ev (toSI defaultRaw) + 0.000169 + 25 +
      (0.0005 * n_ev (toSI defaultRaw)) ^ 2 + 207360 ≤ 210771 := by
    nlinarith [hlo, hhi]
  have hsqrt_hi : Real.sqrt (n_ev (toSI defaultRaw) + 0.000169 + 25 +
      (0.0005 * n_ev (toSI defaultRaw)) ^ 2 + 207360) ≤ 459.11 := by
    have h1 := Real.sqrt_le_sqrt (show n_ev (toSI defaultRaw) + 0.000169 +
      25 + (0.0005 * n_ev (toSI defaultRaw)) ^ 2 + 207360 ≤ 459.11 ^ 2 by
        nlinarith)
    rwa [Real.sqrt_sq (by norm_num : (0:ℝ) ≤ 459.11)] at h1
  have hsqrt_lo : 459 ≤ Real.sqrt (n_ev (toSI defaultRaw) + 0.000169 + 25 +
      (0.0005 * n_ev (toSI defaultRaw)) ^ 2 + 207360) := by
    have h1 := Real.sqrt_le_sqrt (show (459:ℝ) ^ 2 ≤ n_ev (toSI defaultRaw) +
      0.000169 + 25 + (0.0005 * n_ev (toSI defaultRaw)) ^ 2 + 207360 by
        nlinarith)
    rwa [Real.sqrt_sq (by norm_num : (0:ℝ) ≤ 459)] at h1
  have hsqrt_pos : 0 < Real.sqrt (n_ev (toSI defaultRaw) + 0.000169 + 25 +
      (0.0005 * n_ev (toSI defaultRaw)) ^ 2 + 207360) := by linarith
  refine ⟨?_, ?_, ?_⟩
  · rw [abs_le]
    constructor <;> linarith
  · rw [hsat, abs_le]
    constructor <;> linarith
  · have hsnr_lo : 3382.06 / 459.11 ≤ snr (toSI defaultRaw) := by
      rw [hsnr]
      exact div_le_div₀ (by linarith) hlo hsqrt_pos hsqrt_hi
    have hsnr_hi : snr (toSI defaultRaw) ≤ 3382.07 / 459 := by
      rw [hsnr]
      exact div_le_div₀ (by norm_num) hhi (by norm_num) hsqrt_lo
    have hq1 : (7.326:ℝ) ≤ 3382.06 / 459.11 := by norm_num
    have hq2 : (3382.07:ℝ) / 459 ≤ 7.474 := by norm_num
    rw [abs_le]
    constructor <;> linarith

end SNRVis

end
